import Mathlib

/-!
Verification development for the pipe-wise safe-execution core.

This file gives a shallow embedding of the code in
`backend/core/security.py` (static validator), `backend/tools/base.py`
(sentinel-JSON extraction), `backend/core/sandbox.py` (command sandbox)
and the harness of `backend/tools/pandapipes_runner.py`, together with
theorems settling the specification claims about them.

Conventions of the embedding:
* Python strings are Lean `String`s; helpers named `py...` reproduce the
  semantics of the corresponding Python string methods, working over the
  character list so that all of them are structurally recursive and can
  be evaluated by `decide` in witnesses.
* External effects (the CPython parser, `subprocess`, the solver library)
  enter the model as explicit oracle inputs; the code under verification
  is translated statement by statement.
-/

set_option autoImplicit false

namespace Pipewise

/-- Characters Python `str.strip` removes (the `string.whitespace` set). -/
def isPySpace (c : Char) : Bool :=
  c = ' ' || c = '\t' || c = '\n' || c = '\r' || c = '\x0b' || c = '\x0c'

/-- Embedding of Python `s.strip()`. -/
def pyStrip (s : String) : String :=
  String.mk (((s.data.dropWhile isPySpace).reverse.dropWhile isPySpace).reverse)

/-- Whether `pat` occurs as a contiguous run inside `s`. -/
def listIsSubOf (pat : List Char) : List Char → Bool
  | [] => pat.isEmpty
  | c :: tail => pat.isPrefixOf (c :: tail) || listIsSubOf pat tail

/-- Embedding of Python `pat in s` (substring containment). -/
def strContains (s pat : String) : Bool :=
  listIsSubOf pat.data s.data

/-- Embedding of Python `s.startswith(pat)`. -/
def pyStartsWith (s pat : String) : Bool :=
  pat.data.isPrefixOf s.data

/-- Embedding of Python `x or default` on an optional nonnegative int
(`None` and `0` are falsy). -/
def pyOr (o : Option Nat) (d : Nat) : Nat :=
  match o with
  | some n => if n = 0 then d else n
  | none => d

/-- Split a character list on a separator character; the pieces include
empty runs, exactly like Python `str.split(sep)`. -/
def splitOnCharList (sep : Char) : List Char → List (List Char)
  | [] => [[]]
  | c :: cs =>
    let r := splitOnCharList sep cs
    if c = sep then [] :: r
    else
      match r with
      | [] => [[c]]
      | h :: t => (c :: h) :: t

/-- Embedding of Python `"sep".join(parts)`. -/
def joinWith (sep : String) : List String → String
  | [] => ""
  | [s] => s
  | s :: rest => s ++ sep ++ joinWith sep rest

/-- Embedding of Python `s.splitlines()` for newline-terminated text:
split on `\n` and drop a final empty piece produced by a trailing
newline (carriage-return handling is not needed by the modelled code). -/
def pySplitlines (s : String) : List String :=
  match s.data with
  | [] => []
  | cs =>
    let parts := (splitOnCharList '\n' cs).map String.mk
    if parts.getLast? = some "" then parts.dropLast else parts

/-! ## Static validator (`backend/core/security.py`) -/

/-- Message level of a validation message. -/
inductive PyLevel where
  | info
  | warn
  | error
  | blocked
  deriving DecidableEq, Repr

/-- The `where = {"line": int, "col": int}` location payload. -/
structure PyLoc where
  line : Nat
  col : Nat
  deriving DecidableEq, Repr

/-- One entry of the validator's `messages` list
(`{"level": ..., "text": ..., "where": ...}`); the early empty-code
message carries no location. -/
structure PyMsg where
  level : PyLevel
  text : String
  loc : Option PyLoc
  deriving DecidableEq, Repr

/-- Embedding of the Python AST expression nodes the validator inspects:
`ast.Name`, `ast.Attribute`, string `ast.Constant`, other atoms, and
`ast.Call` with positional arguments and keywords.  Line/col store the
node's `lineno` and zero-based `col_offset`. -/
inductive PyExpr where
  | pyName (id : String) (line col : Nat)
  | pyAttr (value : PyExpr) (attrName : String) (line col : Nat)
  | strLit (s : String) (line col : Nat)
  | otherAtom (line col : Nat)
  | call (func : PyExpr) (args : List PyExpr)
      (kwargs : List (Option String × PyExpr)) (line col : Nat)
  deriving Repr

/-- Embedding of the statement nodes the validator inspects:
`ast.Import` (one entry per alias name), `ast.ImportFrom`
(`module` is `None` for relative imports), and expression-bearing
statements that only contribute their child expressions to the walk. -/
inductive PyStmt where
  | imp (aliases : List String) (line col : Nat)
  | impFrom (module : Option String) (line col : Nat)
  | exprStmt (e : PyExpr)
  deriving Repr

/-- A node yielded by `ast.walk`. -/
inductive PyNode where
  | stmtNode (s : PyStmt)
  | exprNode (e : PyExpr)
  deriving Repr

mutual

/-- All expression nodes of a subtree, the root included, as `ast.walk`
yields them (the claims below are insensitive to the walk order). -/
def exprNodes : PyExpr → List PyExpr
  | PyExpr.pyName i l c => [PyExpr.pyName i l c]
  | PyExpr.pyAttr v a l c => PyExpr.pyAttr v a l c :: exprNodes v
  | PyExpr.strLit s l c => [PyExpr.strLit s l c]
  | PyExpr.otherAtom l c => [PyExpr.otherAtom l c]
  | PyExpr.call f args kws l c =>
      PyExpr.call f args kws l c ::
        (exprNodes f ++ exprListNodes args ++ kwListNodes kws)

/-- Walk over a list of argument expressions. -/
def exprListNodes : List PyExpr → List PyExpr
  | [] => []
  | e :: es => exprNodes e ++ exprListNodes es

/-- Walk over keyword arguments. -/
def kwListNodes : List (Option String × PyExpr) → List PyExpr
  | [] => []
  | (_, e) :: ks => exprNodes e ++ kwListNodes ks

end

/-- Nodes contributed to the walk by one statement. -/
def walkStmt : PyStmt → List PyNode
  | PyStmt.imp aliases l c => [PyNode.stmtNode (PyStmt.imp aliases l c)]
  | PyStmt.impFrom m l c => [PyNode.stmtNode (PyStmt.impFrom m l c)]
  | PyStmt.exprStmt e =>
      PyNode.stmtNode (PyStmt.exprStmt e) :: (exprNodes e).map PyNode.exprNode

/-- Embedding of `ast.walk(tree)` for a module body. -/
def walkModule (tree : List PyStmt) : List PyNode :=
  tree.flatMap walkStmt

/-- Root module name: `(name or "").split(".")[0]`. -/
def pyRootModule (name : String) : String :=
  String.mk (name.data.takeWhile (fun c => c ≠ '.'))

/-- The `allow_check` analysis of a call's callee in
`validate_pandapipes_code`: returns the attribute name to check when the
callee is `pp.fn` / `pandapipes.fn` (attribute on a `Name`) or
`x.y.fn` (attribute on an `Attribute` with a nonempty attribute name). -/
def callAllowInfo : PyExpr → Option String
  | PyExpr.pyAttr (PyExpr.pyName base _ _) a _ _ =>
      if base = "pp" || base = "pandapipes" then some a else none
  | PyExpr.pyAttr (PyExpr.pyAttr _ b _ _) a _ _ =>
      if b ≠ "" then some a else none
  | _ => none

/-- Messages the validator's single AST walk emits for one node:
disallowed-import `blocked` messages, disallowed-call `blocked`
messages, and disallowed-dunder-access `blocked` messages, each with
location `(lineno, col_offset + 1)`. -/
def nodeMsgs (allowed : List String) : PyNode → List PyMsg
  | PyNode.stmtNode (PyStmt.imp aliases l c) =>
      aliases.filterMap (fun a =>
        if pyRootModule a ≠ "pandapipes" then
          some ⟨PyLevel.blocked, "Disallowed import \x27" ++ a ++ "\x27",
                some ⟨l, c + 1⟩⟩
        else none)
  | PyNode.stmtNode (PyStmt.impFrom m l c) =>
      let root := match m with
        | some s => pyRootModule s
        | none => ""
      if root ≠ "pandapipes" then
        [⟨PyLevel.blocked,
          "Disallowed import from \x27" ++
            (match m with | some s => s | none => "None") ++ "\x27",
          some ⟨l, c + 1⟩⟩]
      else []
  | PyNode.stmtNode (PyStmt.exprStmt _) => []
  | PyNode.exprNode (PyExpr.call f _ _ l c) =>
      match callAllowInfo f with
      | some fn =>
          if fn ∈ allowed then []
          else [⟨PyLevel.blocked, "Disallowed function \x27" ++ fn ++ "\x27",
                 some ⟨l, c + 1⟩⟩]
      | none => []
  | PyNode.exprNode (PyExpr.pyAttr _ a l c) =>
      if pyStartsWith a "__" && a ≠ "__version__" then
        [⟨PyLevel.blocked, "Disallowed access to \x27" ++ a ++ "\x27",
          some ⟨l, c + 1⟩⟩]
      else []
  | PyNode.exprNode _ => []

/-- The counts dictionary built by `_infer_counts_and_fluid`. -/
structure Components where
  junctions : Nat
  pipes : Nat
  sinks : Nat
  sources : Nat
  ext_grids : Nat
  valves : Nat
  compressors : Nat
  pumps : Nat
  heat_exchangers : Nat
  deriving DecidableEq, Repr

/-- The zero-initialized counts dictionary. -/
def Components.init : Components := ⟨0, 0, 0, 0, 0, 0, 0, 0, 0⟩

/-- The counts dictionary rendered in its Python insertion order. -/
def componentsList (c : Components) : List (String × Nat) :=
  [("junctions", c.junctions), ("pipes", c.pipes), ("sinks", c.sinks),
   ("sources", c.sources), ("ext_grids", c.ext_grids), ("valves", c.valves),
   ("compressors", c.compressors), ("pumps", c.pumps),
   ("heat_exchangers", c.heat_exchangers)]

/-- `_fname` from `_infer_counts_and_fluid`: the bare or attribute name
of a callee. -/
def pyFname : PyExpr → Option String
  | PyExpr.pyName i _ _ => some i
  | PyExpr.pyAttr _ a _ _ => some a
  | _ => none

/-- One step of the component counting in `_infer_counts_and_fluid`
(the `elif` chain over recognized constructor names). -/
def componentsStep (c : Components) : PyNode → Components
  | PyNode.exprNode (PyExpr.call f _ _ _ _) =>
      match pyFname f with
      | none => c
      | some fn =>
          if fn = "create_junction" then { c with junctions := c.junctions + 1 }
          else if fn = "create_pipe_from_parameters" || fn = "create_pipe" then
            { c with pipes := c.pipes + 1 }
          else if fn = "create_sink" then { c with sinks := c.sinks + 1 }
          else if fn = "create_source" then { c with sources := c.sources + 1 }
          else if fn = "create_ext_grid" then { c with ext_grids := c.ext_grids + 1 }
          else if fn = "create_valve" then { c with valves := c.valves + 1 }
          else if fn = "create_compressor" then { c with compressors := c.compressors + 1 }
          else if fn = "create_pump" then { c with pumps := c.pumps + 1 }
          else if fn = "create_heat_exchanger" then
            { c with heat_exchangers := c.heat_exchangers + 1 }
          else c
  | _ => c

/-- One step of the fluid detection in `_infer_counts_and_fluid`: on a
`create_empty_network` call, a `fluid=` keyword whose value is a string
constant overwrites the fluid. -/
def fluidStep (fl : Option String) : PyNode → Option String
  | PyNode.exprNode (PyExpr.call f _ kws _ _) =>
      match pyFname f with
      | some fn =>
          if fn = "create_empty_network" then
            kws.foldl (fun acc kw =>
              match kw with
              | (some "fluid", PyExpr.strLit s _ _) => some s
              | _ => acc) fl
          else fl
      | none => fl
  | _ => fl

/-- The `inferred` payload: `{"fluid": ..., "components": ...}`, with the
components dictionary kept as an ordered key/value list so that the
early-return paths (which return an empty dictionary) are
distinguishable from a populated one. -/
structure Inferred where
  fluid : Option String
  components : List (String × Nat)
  deriving DecidableEq, Repr

/-- Embedding of `_infer_counts_and_fluid` as a fold of the two step
functions over the walk. -/
def inferCountsAndFluid (nodes : List PyNode) : Inferred :=
  ⟨nodes.foldl fluidStep none,
   componentsList (nodes.foldl componentsStep Components.init)⟩

/-- The validator's return value
`{"ok": bool, "messages": [...], "inferred": {...}}`. -/
structure VResult where
  ok : Bool
  messages : List PyMsg
  inferred : Inferred
  deriving DecidableEq, Repr

/-- Whether a message makes the validation fail
(`m.get("level") in ("blocked", "error")`). -/
def levelBad (m : PyMsg) : Bool :=
  decide (m.level = PyLevel.blocked) || decide (m.level = PyLevel.error)

/-- Result of the CPython `ast.parse` call, supplied to the model as an
oracle: a `SyntaxError` carries the parser's message, `lineno` and
`offset` (both optional), a success carries the parsed module body. -/
inductive ParseOutcome where
  | failure (msg : String) (lineno : Option Nat) (offset : Option Nat)
  | success (tree : List PyStmt)

/-- The pre-parse missing-alias warning: emitted unless the raw code
contains the substring `"import pandapipes"`. -/
def warnMsgs (code : String) : List PyMsg :=
  if strContains code "import pandapipes" then []
  else [⟨PyLevel.warn, "Missing \x27import pandapipes as pp\x27", some ⟨1, 1⟩⟩]

/-- The single message built from a `SyntaxError` (`e.lineno or 1`,
`e.offset or 1`). -/
def syntaxErrMsg (m : String) (lineno offset : Option Nat) : PyMsg :=
  ⟨PyLevel.error, "SyntaxError: " ++ m, some ⟨pyOr lineno 1, pyOr offset 1⟩⟩

/-- The full message list of a successful-parse validation: the
pre-parse warnings followed by the messages of the single AST walk. -/
def validateMsgs (allowed : List String) (code : String)
    (tree : List PyStmt) : List PyMsg :=
  warnMsgs code ++ (walkModule tree).flatMap (nodeMsgs allowed)

/-- Embedding of `validate_pandapipes_code`.  `allowed` is the
process-wide `_ALLOWED_FUNCS` whitelist (computed at startup by
introspecting the library's top-level functions), `parsed` the outcome
of `ast.parse(code)`. -/
def validate_pandapipes_code (allowed : List String) (code : String)
    (parsed : ParseOutcome) : VResult :=
  if pyStrip code = "" then
    { ok := false,
      messages := [⟨PyLevel.error, "code is empty", none⟩],
      inferred := ⟨none, []⟩ }
  else
    match parsed with
    | ParseOutcome.failure m lineno offset =>
        { ok := false,
          messages := warnMsgs code ++ [syntaxErrMsg m lineno offset],
          inferred := ⟨none, []⟩ }
    | ParseOutcome.success tree =>
        { ok := !((validateMsgs allowed code tree).any levelBad),
          messages := validateMsgs allowed code tree,
          inferred := inferCountsAndFluid (walkModule tree) }

/-! ## Sentinel extraction and tool runs (`backend/tools/base.py`) -/

/-- The sentinel constant of `tools/base.py` (the harness prints the
same literal). -/
def SENTINEL : String := "PIPEWISE_RESULT_JSON::"

section Sentinel

variable {J : Type}

/-- One iteration of the stdout loop of `_parse_sentinel_json`: a
sentinel-prefixed line has its stripped remainder parsed (`json.loads`
is the oracle `parse`); a successful parse replaces the result, a
failing one is ignored; every other line is appended to the log list. -/
def sentinelStep (parse : String → Option J)
    (acc : Option J × List String) (line : String) : Option J × List String :=
  if pyStartsWith line SENTINEL then
    match parse ((line.drop SENTINEL.length).trim) with
    | some v => (some v, acc.2)
    | none => acc
  else
    (acc.1, acc.2 ++ [line])

/-- Embedding of `_parse_sentinel_json(stdout)`: returns the extracted
result object and the newline-joined remaining logs. -/
def parseSentinelJson (parse : String → Option J) (stdout : String) :
    Option J × String :=
  if stdout = "" then (none, "")
  else
    let r := (pySplitlines stdout).foldl (sentinelStep parse) (none, [])
    (r.1, joinWith "\n" r.2)

/-- The parse results of the sentinel-prefixed lines that parse
successfully, in order. -/
def sentinelPayloads (parse : String → Option J) (lines : List String) : List J :=
  lines.filterMap (fun l =>
    if pyStartsWith l SENTINEL then parse ((l.drop SENTINEL.length).trim)
    else none)

/-- `optOr a b` is `a` unless it is `none`, in which case it is `b`. -/
def optOr (a b : Option J) : Option J :=
  match a with
  | some v => some v
  | none => b

/-- Embedding of the `RunResult` dataclass of `core/sandbox.py`
(the diagnostic `extra` dictionary is not modelled; `wall_time` is in
abstract clock ticks). -/
structure RunResult where
  returncode : Option Int
  stdout : String
  stderr : String
  timed_out : Bool
  killed : Bool
  wall_time : Nat
  deriving DecidableEq, Repr

/-- Embedding of the `ToolRun` dataclass of `tools/base.py`. -/
structure ToolRun (J : Type) where
  ok : Bool
  result : Option J
  logs : String
  stderr : String
  returncode : Option Int
  timed_out : Bool
  wall_time : Nat
  raw : RunResult

/-- Embedding of `run_snippet_with_result` downstream of the
`run_python_snippet` call: `rr` is the `RunResult` the sandbox
returned, `parse` the `json.loads` oracle. -/
def run_snippet_with_result (parse : String → Option J) (rr : RunResult) :
    ToolRun J :=
  let pr := parseSentinelJson parse rr.stdout
  let ok := decide (rr.returncode = some 0) && !rr.timed_out && pr.1.isSome
  { ok := ok, result := pr.1, logs := pr.2, stderr := rr.stderr,
    returncode := rr.returncode, timed_out := rr.timed_out,
    wall_time := rr.wall_time, raw := rr }

end Sentinel

/-! ## Command sandbox (`backend/core/sandbox.py`) -/

/-- Path components of a POSIX path string (empty components dropped,
as `os.path` splitting does for repeated separators). -/
def splitPathParts (p : String) : List String :=
  ((splitOnCharList '/' p.data).map String.mk).filter (fun c => c ≠ "")

/-- Normalization of the component list of an absolute path, as
`os.path.normpath` performs it: `.` is dropped, `..` pops the previous
component (or is dropped at the root). -/
def normAbsParts (ps : List String) : List String :=
  ps.foldl (fun acc comp =>
    if comp = "." then acc
    else if comp = ".." then acc.dropLast
    else acc ++ [comp]) []

/-- Render an absolute path from its components. -/
def joinAbs (ps : List String) : String :=
  "/" ++ joinWith "/" ps

/-- Embedding of `os.path.abspath` on POSIX with an explicit current
directory (`abspath` does not resolve symlinks). -/
def pyAbspath (cwd p : String) : String :=
  let full := if pyStartsWith p "/" then p else cwd ++ "/" ++ p
  joinAbs (normAbsParts (splitPathParts full))

/-- Embedding of `os.path.commonpath([a, b])` for two absolute
normalized paths: the longest common component run. -/
def commonPrefixList : List String → List String → List String
  | x :: xs, y :: ys => if x = y then x :: commonPrefixList xs ys else []
  | _, _ => []

/-- The common path of two absolute paths, rendered as a string. -/
def commonPathAbs (a b : String) : String :=
  joinAbs (commonPrefixList (splitPathParts a) (splitPathParts b))

/-- Embedding of `is_safe_path` from `core/security.py`: the common
path of the absolutized path and the absolutized allowed root must be
the allowed root itself. -/
def is_safe_path (cwd : String) (path : String) (allowed_root : String) : Bool :=
  let ar := pyAbspath cwd allowed_root
  let rp := pyAbspath cwd path
  decide (commonPathAbs rp ar = ar)

/-- Embedding of the `ResourceLimits` dataclass of `core/security.py`. -/
structure ResourceLimits where
  cpu_time_seconds : Option Nat := none
  memory_bytes : Option Nat := none
  wall_time_seconds : Option Nat := none
  deriving DecidableEq, Repr

/-- Behaviour oracle for the spawned child process.  `outcome1` is what
`proc.communicate(input, timeout)` does before the deadline (`none`
standing for `subprocess.TimeoutExpired`); `outcome2` is the result of
the post-`terminate()` `communicate(timeout=5)` within the grace period
(`none`: the child ignored SIGTERM for the whole grace period);
`outcome3` is the output collected by the final `communicate()` after
`kill()`, which always returns.  `retcode` is `proc.returncode` when
the run finishes. -/
structure ChildBehavior where
  outcome1 : Option (String × String)
  outcome2 : Option (String × String)
  outcome3 : String × String
  retcode : Option Int
  deriving DecidableEq, Repr

/-- Observable process-management actions of `run_command`, recorded in
order. -/
inductive SbEvent where
  | spawned
  | terminated
  | killedSig
  deriving DecidableEq, Repr

/-- Result of a `run_command` call: a raised `SandboxError` or a
returned `RunResult`. -/
inductive SbOutcome where
  | err (msg : String)
  | res (r : RunResult)
  deriving DecidableEq, Repr

/-- Ambient state for a `run_command` call: the interpreter's current
directory, the configured allowed root, an `os.path.exists` oracle, the
two clock readings, and the `subprocess.Popen` oracle (`none`: spawning
raises). -/
structure SandboxEnv where
  cwd : String
  allowed_root : String
  pathExists : String → Bool
  startTime : Nat
  endTime : Nat
  spawnOutcome : Option ChildBehavior

/-- The spawn-and-communicate phase of `run_command`, after the
argument checks passed.  Mirrors the `try/except TimeoutExpired`
escalation: on timeout, `terminate()` then `communicate(timeout=5)`;
if that also times out, `kill()` then a final `communicate()`.  Output
is accumulated onto the empty initial buffers exactly as the
`stdout += out or b""` statements do. -/
def runSpawnPhase (env : SandboxEnv) : SbOutcome × List SbEvent :=
  match env.spawnOutcome with
  | none => (SbOutcome.err "Failed to spawn process", [])
  | some child =>
      let wall := env.endTime - env.startTime
      match child.outcome1 with
      | some (o, e) =>
          (SbOutcome.res ⟨child.retcode, o, e, false, false, wall⟩,
           [SbEvent.spawned])
      | none =>
          match child.outcome2 with
          | some (o2, e2) =>
              (SbOutcome.res ⟨child.retcode, o2, e2, true, false, wall⟩,
               [SbEvent.spawned, SbEvent.terminated])
          | none =>
              (SbOutcome.res
                 ⟨child.retcode, child.outcome3.1, child.outcome3.2, true, true, wall⟩,
               [SbEvent.spawned, SbEvent.terminated, SbEvent.killedSig])

/-- Embedding of `run_command`: the empty-command check, then the
working-directory safety and existence checks, then the spawn phase.
The child-side `preexec` hardening and the byte decoding (which
replaces invalid sequences rather than raising) have no bearing on the
claims and are left to the oracles. -/
def run_command (env : SandboxEnv) (command : List String)
    (limits : ResourceLimits) (working_dir : Option String)
    (timeout : Option Nat) : SbOutcome × List SbEvent :=
  if command = [] then (SbOutcome.err "Empty command", [])
  else
    match working_dir with
    | some wd =>
        let wdAbs := pyAbspath env.cwd wd
        if !(is_safe_path env.cwd wdAbs env.allowed_root) then
          (SbOutcome.err ("Unsafe working_dir: " ++ wdAbs), [])
        else if !(env.pathExists wdAbs) then
          (SbOutcome.err ("Working directory does not exist: " ++ wdAbs), [])
        else runSpawnPhase env
    | none => runSpawnPhase env

/-- The working-directory checks of `run_command`, as a predicate: no
directory given, or the absolutized directory is safe and exists. -/
def wdOk (env : SandboxEnv) : Option String → Bool
  | none => true
  | some wd =>
      let wdAbs := pyAbspath env.cwd wd
      is_safe_path env.cwd wdAbs env.allowed_root && env.pathExists wdAbs

/-! ## Domain harness (`backend/tools/pandapipes_runner.py`)

The harness instantiated by `run_pandapipes_code` is a script, so its
control flow is embedded as a function over oracles for the opaque
steps: execution of the user source (an `exec` that either defines
`net`, completes without defining it, or raises an exception the
`except Exception` arm intercepts), the `pp.pipeflow` call, and the
table extraction.  `J` is the type of the extracted
design/results/summary body and `enc` the `json.dumps` oracle. -/

/-- Outcome of `exec(compile(USER_CODE, "USER_CODE.py", "exec"), globals())`
followed by the `'net' in globals()` check.  `raisesExc` is an
exception the `except Exception` arm intercepts; `raisesBaseExc` is a
`BaseException` that is not an `Exception` (`SystemExit` from
`exit()`/`sys.exit()`, `KeyboardInterrupt`), which escapes every
`except Exception` arm of the harness and aborts the interpreter
before any later statement — the sentinel print included — runs. -/
inductive UserOutcome where
  | definesNet
  | noNet
  | raisesExc (excName excMsg : String)
  | raisesBaseExc (excName : String)
  deriving DecidableEq, Repr

/-- Oracle inputs for one harness run: the lines the user code printed
before finishing or failing, its outcome, the traceback text and the
`_extract_user_line` result when it failed, the `pp.pipeflow` outcome
(`some err` when it raised), and the extraction outcome (`Sum.inl`
body on success, `Sum.inr` the formatted exception on failure). -/
structure HarnessRun (J : Type) where
  userPrints : List String
  userOutcome : UserOutcome
  userTb : Option String
  userLine : Option Nat
  pipeflowOutcome : Option String
  extractOutcome : J ⊕ String

/-- The artifacts dictionary the harness serializes: the
design/results/summary body (or the single `error` entry on extraction
failure) plus the error-carrying keys appended at the end of the
script. -/
structure HarnessArtifacts (J : Type) where
  body : J ⊕ String
  pipeflow_error : Option String
  user_code_error : Bool
  user_error : Option String
  user_error_line : Option Nat
  user_traceback : Option String

/-- The artifacts value the harness builds for a run: user-code errors
the `except Exception` arm intercepts are recorded as data,
`pp.pipeflow` runs only when the user code succeeded, extraction
failure collapses the body to one `extract_failed` entry, and the five
error keys are always attached.  For an escaping base exception the
fields reflect the variables' state at the abort (`user_code_error`
still `False`, nothing else ran); that value is never serialized
because `harnessStdout` never reaches the print on that path. -/
def harnessArtifacts {J : Type} (run : HarnessRun J) : HarnessArtifacts J :=
  let uce : Bool :=
    match run.userOutcome with
    | UserOutcome.noNet => true
    | UserOutcome.raisesExc _ _ => true
    | _ => false
  let uerr : Option String :=
    match run.userOutcome with
    | UserOutcome.noNet =>
        some "NameError: variable \x27net\x27 is not defined in user code"
    | UserOutcome.raisesExc n m => some (n ++ ": " ++ m)
    | _ => none
  let body : J ⊕ String :=
    match run.extractOutcome with
    | Sum.inl j => Sum.inl j
    | Sum.inr e => Sum.inr ("extract_failed: " ++ e)
  { body := body,
    pipeflow_error :=
      match run.userOutcome with
      | UserOutcome.definesNet => run.pipeflowOutcome
      | _ => none,
    user_code_error := uce,
    user_error := uerr,
    user_error_line := if uce then run.userLine else none,
    user_traceback := if uce then run.userTb else none }

/-- The stdout lines of one harness execution.  The final
`print("PIPEWISE_RESULT_JSON::" + json.dumps(artifacts))` sits outside
every `try` of the script, so it runs only on the paths that reach it:
a user-raised base exception (`SystemExit` etc.) escapes the
`except Exception` arms and aborts the script with no emission, and a
`json.dumps` that raises on an unserializable artifacts object
(`enc` returning `none`) likewise aborts before anything is printed.
On every other path the user's own prints are followed by the single
sentinel line. -/
def harnessStdout {J : Type} (enc : HarnessArtifacts J → Option String)
    (run : HarnessRun J) : List String :=
  match run.userOutcome with
  | UserOutcome.raisesBaseExc _ => run.userPrints
  | _ =>
      run.userPrints ++
        (match enc (harnessArtifacts run) with
         | some payload => [SENTINEL ++ payload]
         | none => [])

/-- The terminal state of the harness state machine for a run, before
the emission step. -/
inductive HarnessState where
  | userCodeFailed
  | solveFailed
  | extractFailed
  | succeeded
  deriving DecidableEq, Repr

/-- Which terminal state a run reaches; `none` when an escaping base
exception aborts the interpreter before any state of the machine is
reached. -/
def harnessTerminalState {J : Type} (run : HarnessRun J) : Option HarnessState :=
  match run.userOutcome with
  | UserOutcome.raisesBaseExc _ => none
  | UserOutcome.definesNet =>
      match run.extractOutcome with
      | Sum.inr _ => some HarnessState.extractFailed
      | Sum.inl _ =>
          match run.pipeflowOutcome with
          | some _ => some HarnessState.solveFailed
          | none => some HarnessState.succeeded
  | _ => some HarnessState.userCodeFailed

/-- The constructor names `_infer_counts_and_fluid` counts toward the
components map; every one of them is a top-level public function of the
pandapipes library, so the startup-introspected whitelist contains
them. -/
def countedConstructorNames : List String :=
  ["create_junction", "create_pipe_from_parameters", "create_pipe",
   "create_sink", "create_source", "create_ext_grid", "create_valve",
   "create_compressor", "create_pump", "create_heat_exchanger"]

/-! ## Helper lemmas about the validator -/

/-- Every pre-parse message is the `warn`-level missing-alias warning. -/
lemma warnMsgs_level (code : String) :
    ∀ m ∈ warnMsgs code, m.level = PyLevel.warn := by
  intro m hm
  unfold warnMsgs at hm
  split at hm
  · cases hm
  · simp only [List.mem_singleton] at hm
    subst hm
    rfl

/-- Boolean `ok` computation, unfolded to a universally quantified
statement over the message list. -/
lemma not_any_levelBad_iff (msgs : List PyMsg) :
    (!(msgs.any levelBad)) = true ↔
      ∀ m ∈ msgs, m.level ≠ PyLevel.blocked ∧ m.level ≠ PyLevel.error := by
  simp [levelBad, List.any_eq_true, not_or]

/-- The `ok` field equals the absence of `blocked`/`error` messages, on
every control path of the validator. -/
lemma validate_ok_iff_helper (allowed : List String) (code : String)
    (parsed : ParseOutcome) :
    (validate_pandapipes_code allowed code parsed).ok = true ↔
      ∀ m ∈ (validate_pandapipes_code allowed code parsed).messages,
        m.level ≠ PyLevel.blocked ∧ m.level ≠ PyLevel.error := by
  unfold validate_pandapipes_code
  by_cases hne : pyStrip code = ""
  · rw [if_pos hne]
    simp
  · rw [if_neg hne]
    cases parsed with
    | failure m lineno offset =>
        constructor
        · intro h
          exact absurd h (by simp)
        · intro h
          have hm := h (syntaxErrMsg m lineno offset) (by simp)
          exact absurd rfl hm.2
    | success tree =>
        exact not_any_levelBad_iff (validateMsgs allowed code tree)

/-- A message emitted by the walk for a node of the tree belongs to the
final message list. -/
lemma mem_validate_messages (allowed : List String) (code : String)
    (tree : List PyStmt) (node : PyNode) (msg : PyMsg)
    (hne : pyStrip code ≠ "")
    (hnode : node ∈ walkModule tree)
    (hmsg : msg ∈ nodeMsgs allowed node) :
    msg ∈ (validate_pandapipes_code allowed code
      (ParseOutcome.success tree)).messages := by
  unfold validate_pandapipes_code
  rw [if_neg hne]
  exact List.mem_append_right _ (List.mem_flatMap.2 ⟨node, hnode, hmsg⟩)

/-- A `blocked` message in the result forces `ok = false`. -/
lemma validate_ok_false_of_blocked (allowed : List String) (code : String)
    (parsed : ParseOutcome) (msg : PyMsg)
    (hmem : msg ∈ (validate_pandapipes_code allowed code parsed).messages)
    (hlvl : msg.level = PyLevel.blocked) :
    (validate_pandapipes_code allowed code parsed).ok = false := by
  rw [Bool.eq_false_iff]
  intro hok
  have := (validate_ok_iff_helper allowed code parsed).1 hok msg hmem
  exact this.1 hlvl

/-- The `allow_check` attribute name of a callee is exactly its `_fname`. -/
lemma pyFname_of_callAllowInfo (f : PyExpr) (fn : String)
    (h : callAllowInfo f = some fn) : pyFname f = some fn := by
  cases f with
  | pyAttr v a l c =>
      cases v with
      | pyName b bl bc =>
          by_cases hb : b = "pp" || b = "pandapipes"
          · simp only [callAllowInfo, hb, if_true, Option.some.injEq] at h
            rw [pyFname, h]
          · simp only [callAllowInfo, hb] at h
            cases h
      | pyAttr w b bl bc =>
          by_cases hb : b ≠ ""
          · simp only [callAllowInfo, if_pos hb, Option.some.injEq] at h
            rw [pyFname, h]
          · simp only [callAllowInfo, if_neg hb] at h
            cases h
      | strLit s sl sc => simp [callAllowInfo] at h
      | otherAtom sl sc => simp [callAllowInfo] at h
      | call g as ks sl sc => simp [callAllowInfo] at h
  | pyName i l c => simp [callAllowInfo] at h
  | strLit s l c => simp [callAllowInfo] at h
  | otherAtom l c => simp [callAllowInfo] at h
  | call g as ks l c => simp [callAllowInfo] at h

/-! ## Claim theorems: static validator -/

/-- C1: any import statement (plain or from-import) whose root module
name differs from `pandapipes` makes the validation fail and produces a
`blocked` message whose text names the disallowed import and whose
location is the import node's line and (one-based) column. -/
theorem validate_blocks_disallowed_import
    (allowed : List String) (code : String) (tree : List PyStmt)
    (a txt : String) (line col : Nat)
    (hne : pyStrip code ≠ "")
    (himp :
      (∃ aliases, PyNode.stmtNode (PyStmt.imp aliases line col) ∈ walkModule tree ∧
          a ∈ aliases ∧ txt = "Disallowed import \x27" ++ a ++ "\x27") ∨
      (PyNode.stmtNode (PyStmt.impFrom (some a) line col) ∈ walkModule tree ∧
          txt = "Disallowed import from \x27" ++ a ++ "\x27"))
    (hroot : pyRootModule a ≠ "pandapipes") :
    (validate_pandapipes_code allowed code (ParseOutcome.success tree)).ok = false ∧
    ∃ m ∈ (validate_pandapipes_code allowed code (ParseOutcome.success tree)).messages,
      m.level = PyLevel.blocked ∧ m.text = txt ∧ m.loc = some ⟨line, col + 1⟩ := by
  have hmem : (⟨PyLevel.blocked, txt, some ⟨line, col + 1⟩⟩ : PyMsg) ∈
      (validate_pandapipes_code allowed code (ParseOutcome.success tree)).messages := by
    rcases himp with ⟨aliases, hnode, ha, htxt⟩ | ⟨hnode, htxt⟩
    · refine mem_validate_messages allowed code tree _ _ hne hnode ?_
      subst htxt
      exact List.mem_filterMap.2 ⟨a, ha, by rw [if_pos hroot]⟩
    · refine mem_validate_messages allowed code tree _ _ hne hnode ?_
      subst htxt
      simp only [nodeMsgs, if_pos hroot, List.mem_singleton]
  exact ⟨validate_ok_false_of_blocked _ _ _ _ hmem rfl,
    ⟨_, hmem, rfl, rfl, rfl⟩⟩

/-- C1 witness: `code = "import os"` is rejected with a `blocked`
message naming `os` at line 1, column 1. -/
theorem validate_blocks_disallowed_import_witness :
    (validate_pandapipes_code [] "import os"
        (ParseOutcome.success [PyStmt.imp ["os"] 1 0])).ok = false ∧
    ∃ m ∈ (validate_pandapipes_code [] "import os"
        (ParseOutcome.success [PyStmt.imp ["os"] 1 0])).messages,
      m.level = PyLevel.blocked ∧ m.text = "Disallowed import \x27os\x27" ∧
      m.loc = some ⟨1, 1⟩ :=
  validate_blocks_disallowed_import [] "import os" [PyStmt.imp ["os"] 1 0]
    "os" "Disallowed import \x27os\x27" 1 0 (by decide)
    (Or.inl ⟨["os"], by simp [walkModule, walkStmt], by simp, rfl⟩)
    (by decide)

/-- C2: the `ok` field equals "no message has level `blocked` or
`error`" on every control path of the validator; in particular a result
whose messages are all `warn`/`info` has `ok = true`. -/
theorem validate_ok_iff_no_blocking_message (allowed : List String)
    (code : String) (parsed : ParseOutcome) :
    (validate_pandapipes_code allowed code parsed).ok = true ↔
      ∀ m ∈ (validate_pandapipes_code allowed code parsed).messages,
        m.level ≠ PyLevel.blocked ∧ m.level ≠ PyLevel.error :=
  validate_ok_iff_helper allowed code parsed

/-- C8: on a parse failure (with the parser reporting a nonzero line),
the validator returns `ok = false`, exactly one `error`-level message —
carrying the parser's message and its reported line — and empty
inferred facts; the embedding is a total function, so no exception
escapes. -/
theorem validate_syntax_error_single_error (allowed : List String)
    (code m : String) (n : Nat) (offset : Option Nat)
    (hne : pyStrip code ≠ "") (hn : n ≠ 0) :
    (validate_pandapipes_code allowed code
        (ParseOutcome.failure m (some n) offset)).ok = false ∧
    (validate_pandapipes_code allowed code
        (ParseOutcome.failure m (some n) offset)).messages.filter
        (fun msg => decide (msg.level = PyLevel.error)) =
      [⟨PyLevel.error, "SyntaxError: " ++ m, some ⟨n, pyOr offset 1⟩⟩] ∧
    (validate_pandapipes_code allowed code
        (ParseOutcome.failure m (some n) offset)).inferred = ⟨none, []⟩ := by
  unfold validate_pandapipes_code
  rw [if_neg hne]
  refine ⟨rfl, ?_, rfl⟩
  have hwarn : (warnMsgs code).filter
      (fun msg => decide (msg.level = PyLevel.error)) = [] := by
    rw [List.filter_eq_nil_iff]
    intro msg hmsg
    rw [warnMsgs_level code msg hmsg]
    decide
  have hline : pyOr (some n) 1 = n := by
    simp [pyOr, hn]
  simp only [List.filter_append, hwarn, List.nil_append, syntaxErrMsg, hline]
  rfl

/-- C8 witness: a one-line syntax error at line 1 yields exactly the
one error message with that line. -/
theorem validate_syntax_error_single_error_witness :
    (validate_pandapipes_code [] "def"
        (ParseOutcome.failure "invalid syntax" (some 1) (some 4))).ok = false ∧
    (validate_pandapipes_code [] "def"
        (ParseOutcome.failure "invalid syntax" (some 1) (some 4))).messages.filter
        (fun msg => decide (msg.level = PyLevel.error)) =
      [⟨PyLevel.error, "SyntaxError: invalid syntax", some ⟨1, 4⟩⟩] ∧
    (validate_pandapipes_code [] "def"
        (ParseOutcome.failure "invalid syntax" (some 1) (some 4))).inferred =
      ⟨none, []⟩ :=
  validate_syntax_error_single_error [] "def" "invalid syntax" 1 (some 4)
    (by decide) (by decide)

/-- C9: a call that the whitelist check emits as a `blocked` violation
is never simultaneously counted toward the components map, provided the
whitelist contains the recognized constructor names (true of the
startup-introspected pandapipes whitelist, all of whose counted
constructors are top-level library functions). -/
theorem blocked_call_not_counted (allowed : List String)
    (hAll : ∀ n ∈ countedConstructorNames, n ∈ allowed)
    (f : PyExpr) (args : List PyExpr) (kws : List (Option String × PyExpr))
    (line col : Nat) (comps : Components)
    (hb : ∃ m ∈ nodeMsgs allowed
            (PyNode.exprNode (PyExpr.call f args kws line col)),
          m.level = PyLevel.blocked) :
    componentsStep comps (PyNode.exprNode (PyExpr.call f args kws line col)) =
      comps := by
  obtain ⟨msg, hmem, -⟩ := hb
  rcases hc : callAllowInfo f with - | fn
  · simp only [nodeMsgs, hc] at hmem
    cases hmem
  · simp only [nodeMsgs, hc] at hmem
    by_cases hin : fn ∈ allowed
    · rw [if_pos hin] at hmem
      cases hmem
    · have hfn : ∀ s, s ∈ countedConstructorNames → fn ≠ s := by
        intro s hs he
        exact hin (he ▸ hAll s hs)
      have h1 := hfn "create_junction" (by simp [countedConstructorNames])
      have h2 := hfn "create_pipe_from_parameters" (by simp [countedConstructorNames])
      have h3 := hfn "create_pipe" (by simp [countedConstructorNames])
      have h4 := hfn "create_sink" (by simp [countedConstructorNames])
      have h5 := hfn "create_source" (by simp [countedConstructorNames])
      have h6 := hfn "create_ext_grid" (by simp [countedConstructorNames])
      have h7 := hfn "create_valve" (by simp [countedConstructorNames])
      have h8 := hfn "create_pump" (by simp [countedConstructorNames])
      have h9 := hfn "create_heat_exchanger" (by simp [countedConstructorNames])
      have h10 := hfn "create_compressor" (by simp [countedConstructorNames])
      simp [componentsStep, pyFname_of_callAllowInfo f fn hc,
        h1, h2, h3, h4, h5, h6, h7, h8, h9, h10]

/-- C9 witness: the blocked call `pp.evil(...)` leaves the counts
unchanged when the whitelist holds the constructor names. -/
theorem blocked_call_not_counted_witness :
    componentsStep Components.init
      (PyNode.exprNode (PyExpr.call
        (PyExpr.pyAttr (PyExpr.pyName "pp" 1 0) "evil" 1 3) [] [] 1 0)) =
      Components.init :=
  blocked_call_not_counted countedConstructorNames (fun _ h => h)
    (PyExpr.pyAttr (PyExpr.pyName "pp" 1 0) "evil" 1 3) [] [] 1 0
    Components.init (by decide)

/-- C10: on every successful parse of non-blank code, the inferred
facts are exactly the walk-computed fluid and component counts — so
they are computed regardless of any `blocked`/`error` messages — and
the components map carries all nine recognized kinds (counts are `Nat`,
hence non-negative). -/
theorem validate_always_infers (allowed : List String) (code : String)
    (tree : List PyStmt) (hne : pyStrip code ≠ "") :
    (validate_pandapipes_code allowed code
        (ParseOutcome.success tree)).inferred =
      inferCountsAndFluid (walkModule tree) ∧
    (validate_pandapipes_code allowed code
        (ParseOutcome.success tree)).inferred.components.map Prod.fst =
      ["junctions", "pipes", "sinks", "sources", "ext_grids", "valves",
       "compressors", "pumps", "heat_exchangers"] := by
  have h : (validate_pandapipes_code allowed code
      (ParseOutcome.success tree)).inferred =
      inferCountsAndFluid (walkModule tree) := by
    unfold validate_pandapipes_code
    rw [if_neg hne]
  refine ⟨h, ?_⟩
  rw [h, inferCountsAndFluid]
  rfl

/-- C10 witness: the empty module still gets a full components map. -/
theorem validate_always_infers_witness :
    (validate_pandapipes_code [] "x"
        (ParseOutcome.success [])).inferred =
      inferCountsAndFluid (walkModule []) ∧
    (validate_pandapipes_code [] "x"
        (ParseOutcome.success [])).inferred.components.map Prod.fst =
      ["junctions", "pipes", "sinks", "sources", "ext_grids", "valves",
       "compressors", "pumps", "heat_exchangers"] :=
  validate_always_infers [] "x" [] (by decide)

/-! ## Helper lemmas about sentinel extraction -/

section SentinelLemmas

variable {J : Type}

/-- `optOr` with a `none` fallback is the identity. -/
lemma optOr_none (a : Option J) : optOr a none = a := by
  cases a <;> rfl

/-- A fallback behind an always-`some` option is absorbed. -/
lemma optOr_optOr_some (a : Option J) (v : J) (r : Option J) :
    optOr (optOr a (some v)) r = optOr a (some v) := by
  cases a <;> rfl

/-- `getLast?` of a cons, phrased through `optOr`. -/
lemma getLast?_cons_eq_optOr (v : J) (l : List J) :
    (v :: l).getLast? = optOr l.getLast? (some v) := by
  induction l generalizing v with
  | nil => rfl
  | cons x xs ih =>
      rw [List.getLast?_cons_cons, ih x, optOr_optOr_some]

/-- The result component of the stdout fold: the last successfully
parsed sentinel payload, the initial accumulator when there is none. -/
lemma foldl_sentinelStep_fst (parse : String → Option J)
    (lines : List String) (r0 : Option J) (acc0 : List String) :
    (lines.foldl (sentinelStep parse) (r0, acc0)).1 =
      optOr (sentinelPayloads parse lines).getLast? r0 := by
  induction lines generalizing r0 acc0 with
  | nil => simp [sentinelPayloads, optOr]
  | cons l ls ih =>
      rw [List.foldl_cons]
      cases hs : pyStartsWith l SENTINEL with
      | false =>
          rw [show sentinelStep parse (r0, acc0) l = (r0, acc0 ++ [l]) by
            simp [sentinelStep, hs]]
          rw [ih]
          simp [sentinelPayloads, hs]
      | true =>
          cases hp : parse ((l.drop SENTINEL.length).trim) with
          | none =>
              rw [show sentinelStep parse (r0, acc0) l = (r0, acc0) by
                simp [sentinelStep, hs, hp]]
              rw [ih]
              simp [sentinelPayloads, List.filterMap_cons, hs, hp]
          | some v =>
              rw [show sentinelStep parse (r0, acc0) l = (some v, acc0) by
                simp [sentinelStep, hs, hp]]
              rw [ih]
              have hpl : sentinelPayloads parse (l :: ls) =
                  v :: sentinelPayloads parse ls := by
                simp [sentinelPayloads, List.filterMap_cons, hs, hp]
              rw [hpl, getLast?_cons_eq_optOr, optOr_optOr_some]

/-- The log component of the stdout fold: the initial accumulator
followed by the non-sentinel lines in order. -/
lemma foldl_sentinelStep_snd (parse : String → Option J)
    (lines : List String) (r0 : Option J) (acc0 : List String) :
    (lines.foldl (sentinelStep parse) (r0, acc0)).2 =
      acc0 ++ lines.filter (fun l => !(pyStartsWith l SENTINEL)) := by
  induction lines generalizing r0 acc0 with
  | nil => simp
  | cons l ls ih =>
      rw [List.foldl_cons, List.filter_cons]
      cases hs : pyStartsWith l SENTINEL with
      | false =>
          rw [show sentinelStep parse (r0, acc0) l = (r0, acc0 ++ [l]) by
            simp [sentinelStep, hs]]
          rw [ih]
          simp [hs]
      | true =>
          cases hp : parse ((l.drop SENTINEL.length).trim) with
          | none =>
              rw [show sentinelStep parse (r0, acc0) l = (r0, acc0) by
                simp [sentinelStep, hs, hp]]
              rw [ih]
              simp [hs]
          | some v =>
              rw [show sentinelStep parse (r0, acc0) l = (some v, acc0) by
                simp [sentinelStep, hs, hp]]
              rw [ih]
              simp [hs]

end SentinelLemmas

/-! ## Claim theorems: sentinel extraction and tool runs -/

/-- C3: sentinel extraction over the child's stdout — the result is the
parse of the last sentinel-prefixed line whose payload parses (so a
failing payload contributes nothing and the last good one wins), the
logs are the newline-join of exactly the non-sentinel lines in their
original order, and no line contributing to the logs carries the
sentinel. -/
theorem parse_sentinel_extraction_spec {J : Type}
    (parse : String → Option J) (stdout : String) :
    (parseSentinelJson parse stdout).1 =
      (sentinelPayloads parse (pySplitlines stdout)).getLast? ∧
    (parseSentinelJson parse stdout).2 =
      joinWith "\n" ((pySplitlines stdout).filter
        (fun l => !(pyStartsWith l SENTINEL))) ∧
    ∀ l ∈ (pySplitlines stdout).filter (fun l => !(pyStartsWith l SENTINEL)),
      pyStartsWith l SENTINEL = false := by
  refine ⟨?_, ?_, ?_⟩
  · unfold parseSentinelJson
    by_cases h : stdout = ""
    · rw [if_pos h]
      subst h
      rfl
    · rw [if_neg h]
      rw [foldl_sentinelStep_fst, optOr_none]
  · unfold parseSentinelJson
    by_cases h : stdout = ""
    · rw [if_pos h]
      subst h
      rfl
    · rw [if_neg h]
      show joinWith "\n"
          ((pySplitlines stdout).foldl (sentinelStep parse) (none, [])).2 = _
      rw [foldl_sentinelStep_snd, List.nil_append]
  · intro l hl
    have h := (List.mem_filter.1 hl).2
    rwa [Bool.not_eq_true'] at h

/-- C4: a tool run's `ok` is true exactly when the child exited with
code 0, did not time out, and a result object was extracted from a
sentinel line. -/
theorem run_snippet_ok_iff {J : Type} (parse : String → Option J)
    (rr : RunResult) :
    (run_snippet_with_result parse rr).ok = true ↔
      (rr.returncode = some 0 ∧ rr.timed_out = false ∧
        (run_snippet_with_result parse rr).result ≠ none) := by
  unfold run_snippet_with_result
  simp [Bool.and_eq_true, Bool.not_eq_true', Option.isSome_iff_ne_none,
    and_assoc]

/-! ## Claim theorems: command sandbox -/

/-- C5: a `working_dir` that after absolute-path normalization is not
contained in the allowed root makes `run_command` fail with a
`SandboxError` before anything is spawned: the outcome is an error, no
`RunResult` exists, and the event trace is empty. -/
theorem run_command_unsafe_wd_fails_fast (env : SandboxEnv)
    (command : List String) (limits : ResourceLimits) (wd : String)
    (timeout : Option Nat)
    (houtside : is_safe_path env.cwd (pyAbspath env.cwd wd) env.allowed_root
      = false) :
    (∃ msg, (run_command env command limits (some wd) timeout).1 =
      SbOutcome.err msg) ∧
    (run_command env command limits (some wd) timeout).2 = [] := by
  unfold run_command
  by_cases hc : command = []
  · rw [if_pos hc]
    exact ⟨⟨"Empty command", rfl⟩, rfl⟩
  · rw [if_neg hc]
    simp only [houtside, Bool.not_false, if_true]
    exact ⟨⟨_, rfl⟩, trivial⟩

/-- C5 witness: `working_dir = "/etc/passwd"` against the default
allowed root is rejected with no spawn. -/
theorem run_command_unsafe_wd_fails_fast_witness :
    (∃ msg, (run_command
        ⟨"/app", "/tmp/pipewise_storage", fun _ => true, 0, 1, none⟩
        ["python3", "script.py"] {} (some "/etc/passwd") none).1 =
      SbOutcome.err msg) ∧
    (run_command
        ⟨"/app", "/tmp/pipewise_storage", fun _ => true, 0, 1, none⟩
        ["python3", "script.py"] {} (some "/etc/passwd") none).2 = [] :=
  run_command_unsafe_wd_fails_fast
    ⟨"/app", "/tmp/pipewise_storage", fun _ => true, 0, 1, none⟩
    ["python3", "script.py"] {} "/etc/passwd" none (by decide)

/-- C6: a communicate timeout is never raised to the caller — the
result is a `RunResult` with `timed_out = true`; the child is sent
SIGTERM, and if the grace-period wait also expires it is killed
(`killed = true`); the output captured across the phases is what the
returned `RunResult` carries. -/
theorem run_command_timeout_never_raises (env : SandboxEnv)
    (command : List String) (limits : ResourceLimits)
    (working_dir : Option String) (timeout : Option Nat)
    (child : ChildBehavior)
    (hspawn : env.spawnOutcome = some child)
    (hcmd : command ≠ [])
    (hwd : wdOk env working_dir = true)
    (htimeout : child.outcome1 = none) :
    ∃ r, run_command env command limits working_dir timeout =
        (SbOutcome.res r,
         [SbEvent.spawned, SbEvent.terminated] ++
           (match child.outcome2 with
            | some _ => []
            | none => [SbEvent.killedSig])) ∧
      r.timed_out = true ∧
      r.killed = child.outcome2.isNone ∧
      r.stdout = (match child.outcome2 with
        | some oe => oe.1
        | none => child.outcome3.1) ∧
      r.stderr = (match child.outcome2 with
        | some oe => oe.2
        | none => child.outcome3.2) := by
  have hrun : run_command env command limits working_dir timeout =
      runSpawnPhase env := by
    unfold run_command
    rw [if_neg hcmd]
    cases working_dir with
    | none => rfl
    | some wd =>
        unfold wdOk at hwd
        rw [Bool.and_eq_true] at hwd
        simp only [hwd.1, hwd.2, Bool.not_true, Bool.false_eq_true, if_false]
  rw [hrun]
  unfold runSpawnPhase
  rw [hspawn]
  cases h2 : child.outcome2 with
  | some oe =>
      obtain ⟨o2, e2⟩ := oe
      exact ⟨⟨child.retcode, o2, e2, true, false, env.endTime - env.startTime⟩,
        by simp [htimeout, h2], rfl, by simp [h2], rfl, rfl⟩
  | none =>
      exact ⟨⟨child.retcode, child.outcome3.1, child.outcome3.2, true, true,
          env.endTime - env.startTime⟩,
        by simp [htimeout, h2], rfl, by simp [h2], rfl, rfl⟩

/-- C6 witness: a child that ignores SIGTERM is killed and its final
output is returned with `timed_out` and `killed` set. -/
theorem run_command_timeout_never_raises_witness :
    ∃ r, run_command
        ⟨"/app", "/tmp/pipewise_storage", fun _ => true, 0, 7,
         some ⟨none, none, ("tail", ""), some (-9)⟩⟩
        ["python3"] {} none (some 5) =
        (SbOutcome.res r,
         [SbEvent.spawned, SbEvent.terminated] ++
           (match (none : Option (String × String)) with
            | some _ => []
            | none => [SbEvent.killedSig])) ∧
      r.timed_out = true ∧
      r.killed = (none : Option (String × String)).isNone ∧
      r.stdout = (match (none : Option (String × String)) with
        | some oe => oe.1
        | none => "tail") ∧
      r.stderr = (match (none : Option (String × String)) with
        | some oe => oe.2
        | none => "") :=
  run_command_timeout_never_raises
    ⟨"/app", "/tmp/pipewise_storage", fun _ => true, 0, 7,
     some ⟨none, none, ("tail", ""), some (-9)⟩⟩
    ["python3"] {} none (some 5) ⟨none, none, ("tail", ""), some (-9)⟩
    rfl (by decide) rfl rfl

/-! ## Claim theorems: domain harness -/

/-- A character list is a Boolean prefix of itself followed by
anything. -/
lemma isPrefixOf_append_self (l t : List Char) :
    l.isPrefixOf (l ++ t) = true := by
  induction l with
  | nil => simp [List.isPrefixOf]
  | cons c cs ih => simp [List.isPrefixOf, ih]

/-- Appending to a string preserves it as a `startswith` match. -/
lemma pyStartsWith_append (s t : String) : pyStartsWith (s ++ t) s = true := by
  unfold pyStartsWith
  have hdata : (s ++ t).data = s.data ++ t.data := rfl
  rw [hdata]
  exact isPrefixOf_append_self s.data t.data

/-- C7 counterexample: the claim's universal "exactly one sentinel
line" fails on two concrete runs.  User code executing `raise
SystemExit` escapes every `except Exception` arm of the harness and
the interpreter exits with zero sentinel lines; likewise a run whose
artifacts `json.dumps` cannot serialize aborts at the final print —
which sits outside every `try` — with zero sentinel lines. -/
theorem harness_emission_counterexample :
    (harnessStdout (fun _ => some "null")
        (⟨["x"], UserOutcome.raisesBaseExc "SystemExit", none, none, none,
          Sum.inl 0⟩ : HarnessRun Nat)).countP
      (fun l => pyStartsWith l SENTINEL) = 0 ∧
    (harnessStdout (fun _ => (none : Option String))
        (⟨["x"], UserOutcome.definesNet, none, none, none,
          Sum.inl 0⟩ : HarnessRun Nat)).countP
      (fun l => pyStartsWith l SENTINEL) = 0 := by
  decide

/-- C7 (amended): for every harness run whose user code raises at most
exceptions the `except Exception` arms intercept (no
`SystemExit`-class exit) and whose artifacts object `json.dumps`
serializes — covering the terminal states user-code failure, solve
failure, extraction failure and success — the stdout trace ends with
the single sentinel emission, and (as long as the user code does not
itself print a sentinel-prefixed line, the collision the spec leaves
open) that emission is the only sentinel-prefixed stdout line. -/
theorem harness_always_emits_sentinel {J : Type}
    (enc : HarnessArtifacts J → Option String) (run : HarnessRun J)
    (payload : String)
    (hclean : ∀ l ∈ run.userPrints, pyStartsWith l SENTINEL = false)
    (hintercepted : ∀ n, run.userOutcome ≠ UserOutcome.raisesBaseExc n)
    (hdumps : enc (harnessArtifacts run) = some payload) :
    (harnessStdout enc run).getLast? = some (SENTINEL ++ payload) ∧
    (harnessStdout enc run).countP (fun l => pyStartsWith l SENTINEL) = 1 := by
  have hstdout : harnessStdout enc run =
      run.userPrints ++ [SENTINEL ++ payload] := by
    unfold harnessStdout
    cases ho : run.userOutcome with
    | definesNet => rw [hdumps]
    | noNet => rw [hdumps]
    | raisesExc n m => rw [hdumps]
    | raisesBaseExc n => exact absurd ho (hintercepted n)
  rw [hstdout]
  constructor
  · exact List.getLast?_concat _
  · rw [List.countP_append]
    have h0 : run.userPrints.countP (fun l => pyStartsWith l SENTINEL) = 0 := by
      rw [List.countP_eq_zero]
      intro l hl
      simp [hclean l hl]
    rw [h0]
    simp [List.countP_cons, pyStartsWith_append]

/-- C7 witness: a successful run with no user prints and a
serializable artifacts object emits exactly the one sentinel line,
which is also the last line. -/
theorem harness_always_emits_sentinel_witness :
    (harnessStdout (fun _ => some "null")
        (⟨[], UserOutcome.definesNet, none, none, none, Sum.inl 0⟩ :
          HarnessRun Nat)).getLast? = some (SENTINEL ++ "null") ∧
    (harnessStdout (fun _ => some "null")
        (⟨[], UserOutcome.definesNet, none, none, none, Sum.inl 0⟩ :
          HarnessRun Nat)).countP (fun l => pyStartsWith l SENTINEL) = 1 :=
  harness_always_emits_sentinel (fun _ => some "null")
    ⟨[], UserOutcome.definesNet, none, none, none, Sum.inl 0⟩ "null"
    (by simp) (by simp) rfl

end Pipewise
